import Mathlib

/-!
Verification of the FewKnow post-earnings analysis pipeline.

Shallow embedding of the pipeline code in `api/core.py` and `api/server.py`:
the comment-traversal filter (`_extract_quality_comments`), the Reddit
discussion collector (`collect_reddit_data`), the job orchestrator
(`run_analysis`), the result endpoint (`get_result`) and the websocket replay
(`websocket_endpoint`).  External effects (network fetches, LLM calls) are
modelled as environment records whose fields return `Except`-wrapped values;
timestamps are `Nat` seconds; calendar string formatting of a timestamp is
abstracted to its decimal numeral (the claims never inspect date strings).
-/

/-- Python string slice `s[:n]`. -/
def pyTrunc (s : String) (n : Nat) : String :=
  (s.toList.take n).asString

theorem pyTrunc_length (s : String) (n : Nat) :
    (pyTrunc s n).length = min n s.length := by
  have h : s.toList.length = s.length := rfl
  simp [pyTrunc, List.length_asString, List.length_take, h]

theorem string_ne_empty_of_len_pos (s : String) (h : 0 < s.length) : s ≠ "" := by
  intro he
  subst he
  simp at h

/-! ## Comment trees (`asyncpraw` comment forests)

A queue element in `_extract_quality_comments` is either a `MoreComments`
placeholder or a real comment.  `body` is `Option String` (`getattr(comment,
"body", None)`: `none` models a missing/`None` body), `score` defaults to `0`
when absent so it is always an `Int`, `created_utc` is optional, and `replies`
is the `_comments` list of the reply forest (an absent or empty `_comments`
list and a `None` forest all behave as the empty forest: the `extend` is
skipped, which equals extending with nothing). -/

mutual

inductive CNode : Type where
  | more : CNode
  | comment (body : Option String) (score : Int) (created_utc : Option Nat)
      (replies : CForest) : CNode

inductive CForest : Type where
  | nil : CForest
  | cons (head : CNode) (tail : CForest) : CForest

end

mutual

def CNode.size : CNode → Nat
  | .more => 1
  | .comment _ _ _ rs => 1 + rs.size

def CForest.size : CForest → Nat
  | .nil => 0
  | .cons c rest => c.size + rest.size

end

def CForest.toList : CForest → List CNode
  | .nil => []
  | .cons c rest => c :: rest.toList

/-- Total size of a work queue of comment nodes (termination measure for the
BFS loop). -/
def queueSize (q : List CNode) : Nat :=
  (q.map CNode.size).sum

theorem queueSize_nil : queueSize [] = 0 := rfl

theorem queueSize_cons (c : CNode) (q : List CNode) :
    queueSize (c :: q) = c.size + queueSize q := by
  simp [queueSize]

theorem queueSize_append (q r : List CNode) :
    queueSize (q ++ r) = queueSize q + queueSize r := by
  simp [queueSize]

theorem queueSize_toList : ∀ f : CForest, queueSize f.toList = f.size
  | .nil => rfl
  | .cons c rest => by
      simp [CForest.toList, CForest.size, queueSize_cons, queueSize_toList rest]

theorem CNode.size_pos (c : CNode) : 0 < c.size := by
  cases c with
  | more => simp [CNode.size]
  | comment b s t rs => simp [CNode.size]

/-- The dict shape shared by submission items and comment items in the
collected discussion list (`type`, `date`, `title`, `text`, `score`, `url`,
`subreddit`). -/
structure PostData where
  type : String
  date : String
  title : String
  text : String
  score : Int
  url : String
  subreddit : String
deriving DecidableEq, Repr

/-- The dict built for a qualifying comment in `_extract_quality_comments`.
The `strftime` rendering of `created_utc` is abstracted to the decimal
numeral of the timestamp; absent `created_utc` yields the literal
`"unknown"`. -/
def mkCommentData (submissionTitle permalink subredditName : String)
    (body : String) (score : Int) (created_utc : Option Nat) : PostData :=
  { type := "comment"
    date := match created_utc with
      | some t => toString t
      | none => "unknown"
    title := "Comment on: " ++ pyTrunc submissionTitle 50 ++ "..."
    text := pyTrunc body 1000
    score := score
    url := "https://reddit.com" ++ permalink
    subreddit := subredditName }

/-- The `while comment_queue and len(quality_comments) < max_comments` loop of
`_extract_quality_comments`: pop the front node; skip `MoreComments`
placeholders; a comment failing the quality bar (falsy body, `score < 5`, or
`len(body) <= 100`) still has its replies appended to the back of the queue; a
qualifying comment is recorded and its replies are appended as well. -/
def extractLoop (submissionTitle permalink subredditName : String)
    (maxComments : Nat) (queue : List CNode) (acc : List PostData) :
    List PostData :=
  match queue with
  | [] => acc
  | c :: rest =>
    if maxComments ≤ acc.length then acc
    else
      match c with
      | .more => extractLoop submissionTitle permalink subredditName maxComments rest acc
      | .comment body score created_utc replies =>
        let bodyStr := body.getD ""
        if bodyStr = "" ∨ score < 5 ∨ bodyStr.length ≤ 100 then
          extractLoop submissionTitle permalink subredditName maxComments
            (rest ++ replies.toList) acc
        else
          extractLoop submissionTitle permalink subredditName maxComments
            (rest ++ replies.toList)
            (acc ++ [mkCommentData submissionTitle permalink subredditName
              bodyStr score created_utc])
termination_by queueSize queue
decreasing_by
  all_goals simp [queueSize_cons, queueSize_append, queueSize_toList, CNode.size]
  all_goals omega

/-- `_extract_quality_comments`: `loaded = none` models the degradation paths
(the comment forest cannot be loaded, or `replace_more` raises), both of which
return `[]`; otherwise the BFS loop runs on the forest's `_comments` list. -/
def extractQualityComments (loaded : Option CForest)
    (submissionTitle permalink subredditName : String) (maxComments : Nat) :
    List PostData :=
  match loaded with
  | none => []
  | some forest =>
      extractLoop submissionTitle permalink subredditName maxComments
        forest.toList []

theorem extractLoop_nil (t p s : String) (maxC : Nat) (acc : List PostData) :
    extractLoop t p s maxC [] acc = acc := by
  rw [extractLoop.eq_def]

theorem extractLoop_stop (t p s : String) (maxC : Nat) (acc : List PostData)
    (c : CNode) (rest : List CNode) (h : maxC ≤ acc.length) :
    extractLoop t p s maxC (c :: rest) acc = acc := by
  rw [extractLoop.eq_def]
  simp [h]

theorem extractLoop_more (t p s : String) (maxC : Nat) (acc : List PostData)
    (rest : List CNode) (h : ¬ maxC ≤ acc.length) :
    extractLoop t p s maxC (CNode.more :: rest) acc =
      extractLoop t p s maxC rest acc := by
  rw [extractLoop.eq_def]
  simp [h]

theorem extractLoop_skip (t p s : String) (maxC : Nat) (acc : List PostData)
    (rest : List CNode) (body : Option String) (score : Int)
    (created : Option Nat) (replies : CForest) (h : ¬ maxC ≤ acc.length)
    (hq : body.getD "" = "" ∨ score < 5 ∨ (body.getD "").length ≤ 100) :
    extractLoop t p s maxC (CNode.comment body score created replies :: rest) acc =
      extractLoop t p s maxC (rest ++ replies.toList) acc := by
  rw [extractLoop.eq_def]
  simp only [h, if_false, ite_false]
  simp [hq]

theorem extractLoop_take (t p s : String) (maxC : Nat) (acc : List PostData)
    (rest : List CNode) (body : Option String) (score : Int)
    (created : Option Nat) (replies : CForest) (h : ¬ maxC ≤ acc.length)
    (hq : ¬ (body.getD "" = "" ∨ score < 5 ∨ (body.getD "").length ≤ 100)) :
    extractLoop t p s maxC (CNode.comment body score created replies :: rest) acc =
      extractLoop t p s maxC (rest ++ replies.toList)
        (acc ++ [mkCommentData t p s (body.getD "") score created]) := by
  rw [extractLoop.eq_def]
  simp only [h, if_false, ite_false]
  simp [hq]

theorem extractLoop_length_le (t p s : String) (maxC : Nat)
    (q : List CNode) (acc : List PostData) :
    (extractLoop t p s maxC q acc).length ≤ max acc.length maxC := by
  induction q, acc using extractLoop.induct t p s maxC with
  | case1 acc => rw [extractLoop_nil]; omega
  | case2 acc c rest h => rw [extractLoop_stop t p s maxC acc c rest h]; omega
  | case3 acc rest h ih => rw [extractLoop_more t p s maxC acc rest h]; exact ih
  | case4 acc rest h body score created replies bodyStr hq ih =>
      rw [extractLoop_skip t p s maxC acc rest body score created replies h hq]
      exact ih
  | case5 acc rest h body score created replies bodyStr hq ih =>
      rw [extractLoop_take t p s maxC acc rest body score created replies h hq]
      rw [show bodyStr = body.getD "" from rfl] at ih
      simp only [List.length_append, List.length_cons, List.length_nil] at ih ⊢
      omega

theorem extractLoop_mem_quality (t p s : String) (maxC : Nat)
    (q : List CNode) (acc : List PostData) :
    ∀ cd ∈ extractLoop t p s maxC q acc,
      cd ∈ acc ∨ (cd.type = "comment" ∧ 5 ≤ cd.score ∧ 100 < cd.text.length) := by
  induction q, acc using extractLoop.induct t p s maxC with
  | case1 acc =>
      rw [extractLoop_nil]
      exact fun cd hcd => Or.inl hcd
  | case2 acc c rest h =>
      rw [extractLoop_stop t p s maxC acc c rest h]
      exact fun cd hcd => Or.inl hcd
  | case3 acc rest h ih =>
      rw [extractLoop_more t p s maxC acc rest h]
      exact ih
  | case4 acc rest h body score created replies bodyStr hq ih =>
      rw [extractLoop_skip t p s maxC acc rest body score created replies h hq]
      exact ih
  | case5 acc rest h body score created replies bodyStr hq ih =>
      rw [extractLoop_take t p s maxC acc rest body score created replies h hq]
      rw [show bodyStr = body.getD "" from rfl] at ih hq
      intro cd hcd
      rcases ih cd hcd with hmem | hqual
      · rcases List.mem_append.mp hmem with hacc | hone
        · exact Or.inl hacc
        · right
          push_neg at hq
          obtain ⟨hb, hs, hl⟩ := hq
          have hcd' : cd = mkCommentData t p s (body.getD "") score created :=
            List.mem_singleton.mp hone
          subst hcd'
          refine ⟨rfl, hs, ?_⟩
          simp only [mkCommentData, pyTrunc_length]
          omega
      · exact Or.inr hqual

/-- C1: for every reply tree and every requested maximum, the comment
traversal filter returns at most the requested maximum number of comments,
and every returned comment has a non-empty body, score at least 5, and body
length strictly greater than 100 characters. -/
theorem c1_extract_at_most_max_and_quality (loaded : Option CForest)
    (t p s : String) (maxC : Nat) :
    (extractQualityComments loaded t p s maxC).length ≤ maxC ∧
    ∀ cd ∈ extractQualityComments loaded t p s maxC,
      cd.text ≠ "" ∧ 5 ≤ cd.score ∧ 100 < cd.text.length := by
  constructor
  · cases loaded with
    | none => simp [extractQualityComments]
    | some forest =>
        have h := extractLoop_length_le t p s maxC forest.toList []
        simpa [extractQualityComments] using h
  · intro cd hcd
    cases loaded with
    | none => simp [extractQualityComments] at hcd
    | some forest =>
        have h := extractLoop_mem_quality t p s maxC forest.toList [] cd
          (by simpa [extractQualityComments] using hcd)
        rcases h with h | ⟨ht, hs, hl⟩
        · simp at h
        · exact ⟨string_ne_empty_of_len_pos _ (by omega), hs, hl⟩

/-- A 120-character body used in the C1 witness scenario. -/
def c1Body : String := String.mk (List.replicate 120 'b')

def c1Forest : CForest :=
  .cons (.comment (some c1Body) 7 (some 1000) .nil) .nil

theorem c1Body_length : c1Body.length = 120 := by
  simp [c1Body, String.length]

theorem c1Forest_extract (t p s : String) :
    extractQualityComments (some c1Forest) t p s 5 =
      [mkCommentData t p s c1Body 7 (some 1000)] := by
  have h0 : ¬ (5 : Nat) ≤ ([] : List PostData).length := by simp
  have hq : ¬ ((some c1Body).getD "" = "" ∨ (7 : Int) < 5 ∨
      ((some c1Body).getD "").length ≤ 100) := by
    simp only [Option.getD_some, c1Body_length]
    push_neg
    refine ⟨string_ne_empty_of_len_pos _ (by rw [c1Body_length]; omega),
      by omega, by omega⟩
  simp only [extractQualityComments, c1Forest, CForest.toList]
  rw [extractLoop_take t p s 5 [] [] (some c1Body) 7 (some 1000)
    CForest.nil h0 hq]
  simp only [CForest.toList, List.append_nil, List.nil_append]
  rw [extractLoop_nil]
  simp only [Option.getD_some]

theorem c1_witness :
    (mkCommentData "T" "/p" "sub" c1Body 7 (some 1000)).text ≠ "" ∧
    5 ≤ (mkCommentData "T" "/p" "sub" c1Body 7 (some 1000)).score ∧
    100 < (mkCommentData "T" "/p" "sub" c1Body 7 (some 1000)).text.length :=
  (c1_extract_at_most_max_and_quality (some c1Forest) "T" "/p" "sub" 5).2
    (mkCommentData "T" "/p" "sub" c1Body 7 (some 1000))
    (by rw [c1Forest_extract]; exact List.mem_singleton_self _)

/-- A 150-character body: the depth-2 quality comment of the C2 scenario. -/
def demoBody : String := String.mk (List.replicate 150 'a')

theorem demoBody_length : demoBody.length = 150 := by
  simp [demoBody, String.length]

theorem demoBody_ne_empty : ¬ demoBody = "" := by decide

/-- Depth-3 reply tree: both root comments score below 5, the depth-1 reply
also fails the bar, and the depth-2 reply scores 12 with a 150-character
body. -/
def c2Grandchild : CNode := .comment (some demoBody) 12 (some 1700000000) .nil

def c2Child : CNode := .comment (some "short") 3 none (.cons c2Grandchild .nil)

def c2Root1 : CNode := .comment (some "low quality root text") 2 none
  (.cons c2Child .nil)

def c2Root2 : CNode := .comment (some "meh") 4 none .nil

def c2Tree : CForest := .cons c2Root1 (.cons c2Root2 .nil)

/-- C2: in the comment traversal filter a disqualified comment still has its
replies appended to the back of the queue, so for the depth-3 tree in which
every root-level comment scores below 5 but one depth-2 comment scores 12
with a 150-character body, the traversal returns exactly that one comment for
every requested maximum of at least 1. -/
theorem c2_deep_reply_reached (maxC : Nat) (h : 1 ≤ maxC) :
    extractQualityComments (some c2Tree) "Post" "/r/1" "stocks" maxC =
      [mkCommentData "Post" "/r/1" "stocks" demoBody 12 (some 1700000000)] := by
  have h0 : ¬ maxC ≤ ([] : List PostData).length := by
    simp only [List.length_nil]
    omega
  simp only [extractQualityComments, c2Tree, c2Root1, c2Root2, c2Child,
    c2Grandchild, CForest.toList]
  rw [extractLoop_skip _ _ _ _ _ _ _ _ _ _ h0 (by decide)]
  simp only [CForest.toList, List.nil_append, List.cons_append,
    List.append_nil]
  rw [extractLoop_skip _ _ _ _ _ _ _ _ _ _ h0 (by decide)]
  simp only [CForest.toList, List.nil_append, List.cons_append,
    List.append_nil]
  rw [extractLoop_skip _ _ _ _ _ _ _ _ _ _ h0 (by decide)]
  simp only [CForest.toList, List.nil_append, List.cons_append,
    List.append_nil]
  rw [extractLoop_take _ _ _ _ _ _ _ _ _ _ h0 (by
    simp only [Option.getD_some, demoBody_length]
    push_neg
    refine ⟨demoBody_ne_empty, by omega, by omega⟩)]
  simp only [CForest.toList, List.nil_append, List.append_nil]
  rw [extractLoop_nil]
  simp only [Option.getD_some]

theorem c2_witness :
    extractQualityComments (some c2Tree) "Post" "/r/1" "stocks" 1 =
      [mkCommentData "Post" "/r/1" "stocks" demoBody 12 (some 1700000000)] :=
  c2_deep_reply_reached 1 (by decide)

/-! ## Discussion collector (`collect_reddit_data`)

A Reddit submission as the collector reads it.  `author = none` models
`submission.author is None`; `comments = none` models a comment forest that
cannot be loaded (see `extractQualityComments`). -/

structure Submission where
  created_utc : Nat
  score : Int
  author : Option String
  title : String
  selftext : String
  permalink : String
  comments : Option CForest

def containsAux (pat : List Char) : List Char → Bool
  | [] => pat.isEmpty
  | c :: rest => pat.isPrefixOf (c :: rest) || containsAux pat rest

/-- Python `pat in s`: some suffix of `s` starts with `pat`. -/
def strContainsSub (s pat : String) : Bool :=
  containsAux pat.toList s.toList

/-- Python `str.lower()` (ASCII-relevant part of the case mapping). -/
def pyLower (s : String) : String :=
  (s.toList.map Char.toLower).asString

/-- Environment of the collector: the three `os.getenv` credential reads
(`none` models an absent variable) and the per-(subreddit, query) search
call, which either fails (the failure is logged and that pair is skipped) or
yields the submissions streamed by `subreddit.search` (a `None` result behaves
as an empty stream). -/
structure RedditEnv where
  clientId : Option String
  clientSecret : Option String
  userAgent : Option String
  search : String → String → Except String (List Submission)

def SUBREDDITS : List String := ["wallstreetbets", "stocks", "investing"]

/-- The three per-hit filters of the search loop, in source order: discard
posts created before the earnings date, posts scoring below 10, and posts
whose author is deleted or an automoderator account. -/
def submissionPasses (startTimestamp : Nat) (s : Submission) : Bool :=
  !(decide (s.created_utc < startTimestamp)) && !(decide (s.score < 10)) &&
    (match s.author with
     | none => false
     | some name => !(strContainsSub (pyLower name) "automod"))

/-- One `subreddit.search(query, ...)` call with its `try/except`: a failing
search contributes nothing and the loop continues. -/
def searchHits (env : RedditEnv) (subredditName query : String) :
    List Submission :=
  match env.search subredditName query with
  | .error _ => []
  | .ok subs => subs

/-- The submission-gathering double loop over subreddits and the two queries
`"$TICKER"` and the company name, keeping filtered hits paired with their
subreddit name, in iteration order. -/
def gatherSubmissions (env : RedditEnv) (ticker companyName : String)
    (startTimestamp : Nat) : List (Submission × String) :=
  SUBREDDITS.flatMap fun subredditName =>
    ["$" ++ ticker, companyName].flatMap fun query =>
      ((searchHits env subredditName query).filter
        (submissionPasses startTimestamp)).map fun s => (s, subredditName)

/-- The `post_data` dict built for a surviving submission (`strftime` of
`created_utc` abstracted to its numeral, as in `mkCommentData`). -/
def mkSubmissionData (subredditName : String) (s : Submission) : PostData :=
  { type := "submission"
    date := toString s.created_utc
    title := s.title
    text := pyTrunc s.selftext 1000
    score := s.score
    url := "https://reddit.com" ++ s.permalink
    subreddit := subredditName }

/-- `key=lambda x: x[0].score, reverse=True` as a stable-sort relation. -/
def submissionScoreGe (a b : Submission × String) : Bool :=
  decide (b.1.score ≤ a.1.score)

/-- `key=lambda x: x['score'], reverse=True` as a stable-sort relation. -/
def postScoreGe (a b : PostData) : Bool :=
  decide (b.score ≤ a.score)

/-- The top-30-by-score submissions selected for comment extraction. -/
def topSubmissions (gathered : List (Submission × String)) :
    List (Submission × String) :=
  (gathered.mergeSort submissionScoreGe).take 30

/-- The comment pool: each of the top submissions is expanded by the comment
traversal filter, capped at 5 comments per submission. -/
def commentPool (gathered : List (Submission × String)) : List PostData :=
  (topSubmissions gathered).flatMap fun g =>
    extractQualityComments g.1.comments g.1.title g.1.permalink g.2 5

/-- `collect_reddit_data`: fail fast with `ValueError` when any of the three
credentials is falsy (`all([...])` treats both an absent variable and an
empty string as missing); otherwise gather submissions, extract comments for
the top 30 by score, merge, sort by score descending (Python's stable sort
with `reverse=True`), and truncate to 100 items.  An empty survivor set is
returned as `ok []`, not as an error. -/
def collectRedditData (env : RedditEnv) (ticker companyName : String)
    (startTimestamp : Nat) : Except String (List PostData) :=
  if (env.clientId.getD "") = "" ∨ (env.clientSecret.getD "") = "" ∨
      (env.userAgent.getD "") = "" then
    .error ("Reddit credentials not found in environment variables. " ++
      "Required: REDDIT_CLIENT_ID, REDDIT_CLIENT_SECRET, REDDIT_USER_AGENT")
  else
    let gathered := gatherSubmissions env ticker companyName startTimestamp
    let allPosts := (gathered.map fun g => mkSubmissionData g.2 g.1) ++
      commentPool gathered
    .ok ((allPosts.mergeSort postScoreGe).take 100)

theorem postScoreGe_trans (a b c : PostData) (hab : postScoreGe a b = true)
    (hbc : postScoreGe b c = true) : postScoreGe a c = true := by
  simp only [postScoreGe, decide_eq_true_eq] at *
  omega

theorem postScoreGe_total (a b : PostData) :
    (postScoreGe a b || postScoreGe b a) = true := by
  simp only [postScoreGe, Bool.or_eq_true, decide_eq_true_eq]
  exact Int.le_total b.score a.score

/-- C3: whenever the discussion collector succeeds, its returned sequence is
sorted by score in descending order and has length at most 100. -/
theorem c3_collect_sorted_and_capped (env : RedditEnv)
    (ticker companyName : String) (ts : Nat) (l : List PostData)
    (h : collectRedditData env ticker companyName ts = .ok l) :
    List.Pairwise (fun a b => b.score ≤ a.score) l ∧ l.length ≤ 100 := by
  unfold collectRedditData at h
  split at h
  · exact absurd h (by simp)
  · cases h
    constructor
    · apply List.Pairwise.sublist (List.take_sublist _ _)
      have hs := List.sorted_mergeSort postScoreGe_trans postScoreGe_total
        ((gatherSubmissions env ticker companyName ts).map
            (fun g => mkSubmissionData g.2 g.1) ++
          commentPool (gatherSubmissions env ticker companyName ts))
      exact hs.imp fun hab => by
        simpa only [postScoreGe, decide_eq_true_eq] using hab
    · simp only [List.length_take]
      omega

def c3Env : RedditEnv :=
  { clientId := some "id"
    clientSecret := some "secret"
    userAgent := some "agent"
    search := fun _ _ => .ok [] }

theorem c3_collect_eval : collectRedditData c3Env "AB" "Acme" 0 = .ok [] := by
  simp [collectRedditData, c3Env, gatherSubmissions, searchHits, SUBREDDITS,
    commentPool, topSubmissions, List.mergeSort_nil]

theorem c3_witness :
    List.Pairwise (fun a b : PostData => b.score ≤ a.score) ([] : List PostData) ∧
    ([] : List PostData).length ≤ 100 :=
  c3_collect_sorted_and_capped c3Env "AB" "Acme" 0 [] c3_collect_eval

/-- C4: every comment-type item in the collector's output comes from one of
the (at most 30) top-score gathered submissions expanded with a per-submission
cap of 5; a submission outside the take-30 prefix of the score-sorted
candidate list never contributes a comment. -/
theorem c4_comments_only_from_top30 (env : RedditEnv)
    (ticker companyName : String) (ts : Nat) (l : List PostData)
    (h : collectRedditData env ticker companyName ts = .ok l)
    (item : PostData) (hm : item ∈ l) (ht : item.type = "comment") :
    ∃ g ∈ topSubmissions (gatherSubmissions env ticker companyName ts),
      item ∈ extractQualityComments g.1.comments g.1.title g.1.permalink g.2 5 := by
  unfold collectRedditData at h
  split at h
  · exact absurd h (by simp)
  · cases h
    have h1 := List.Sublist.mem hm (List.take_sublist _ _)
    have h2 := List.mem_mergeSort.mp h1
    rcases List.mem_append.mp h2 with hsub | hcom
    · obtain ⟨g, hg, hgi⟩ := List.mem_map.mp hsub
      rw [← hgi] at ht
      simp [mkSubmissionData] at ht
    · exact List.mem_flatMap.mp hcom

def c4Submission : Submission :=
  { created_utc := 100
    score := 15
    author := some "bob"
    title := "T"
    selftext := "body"
    permalink := "/p"
    comments := some c1Forest }

def c4Env : RedditEnv :=
  { clientId := some "id"
    clientSecret := some "secret"
    userAgent := some "agent"
    search := fun subredditName query =>
      if subredditName = "wallstreetbets" ∧ query = "$AB" then
        .ok [c4Submission]
      else
        .ok [] }

theorem c4_gather_eval :
    gatherSubmissions c4Env "AB" "Acme" 0 = [(c4Submission, "wallstreetbets")] := by
  have hpass : submissionPasses 0 c4Submission = true := rfl
  simp [gatherSubmissions, SUBREDDITS, searchHits, c4Env, List.filter, hpass]

theorem c4_comment_pool_eval :
    commentPool [(c4Submission, "wallstreetbets")] =
      [mkCommentData "T" "/p" "wallstreetbets" c1Body 7 (some 1000)] := by
  simp only [commentPool, topSubmissions, List.mergeSort_singleton,
    List.take_succ_cons, List.take_nil, List.flatMap_cons, List.flatMap_nil,
    List.append_nil]
  rw [show c4Submission.comments = some c1Forest from rfl]
  rw [show c4Submission.title = "T" from rfl,
    show c4Submission.permalink = "/p" from rfl]
  rw [c1Forest_extract]

theorem collectRedditData_ok (env : RedditEnv) (ticker companyName : String)
    (ts : Nat) (h : ¬ ((env.clientId.getD "") = "" ∨
      (env.clientSecret.getD "") = "" ∨ (env.userAgent.getD "") = "")) :
    collectRedditData env ticker companyName ts =
      .ok (((((gatherSubmissions env ticker companyName ts).map fun g =>
          mkSubmissionData g.2 g.1) ++
        commentPool (gatherSubmissions env ticker companyName ts)).mergeSort
          postScoreGe).take 100) := by
  unfold collectRedditData
  rw [if_neg h]

theorem c4_collect_eval :
    collectRedditData c4Env "AB" "Acme" 0 =
      .ok [mkSubmissionData "wallstreetbets" c4Submission,
        mkCommentData "T" "/p" "wallstreetbets" c1Body 7 (some 1000)] := by
  rw [collectRedditData_ok c4Env "AB" "Acme" 0 (by simp [c4Env])]
  rw [c4_gather_eval, c4_comment_pool_eval]
  simp only [List.map_cons, List.map_nil, List.cons_append, List.nil_append]
  rw [List.mergeSort_of_sorted (by
    refine List.pairwise_cons.mpr ⟨?_, List.pairwise_singleton _ _⟩
    intro b hb
    rw [List.mem_singleton.mp hb]
    rfl)]
  rw [List.take_of_length_le (by simp)]

theorem c4_witness :
    ∃ g ∈ topSubmissions (gatherSubmissions c4Env "AB" "Acme" 0),
      mkCommentData "T" "/p" "wallstreetbets" c1Body 7 (some 1000) ∈
        extractQualityComments g.1.comments g.1.title g.1.permalink g.2 5 := by
  apply c4_comments_only_from_top30 c4Env "AB" "Acme" 0
    [mkSubmissionData "wallstreetbets" c4Submission,
      mkCommentData "T" "/p" "wallstreetbets" c1Body 7 (some 1000)]
    c4_collect_eval
  · simp
  · rfl

/-- All three credentials present (none is absent from the environment), yet
the leading one is the empty string, which `all([...])` treats as missing. -/
def c8Env : RedditEnv :=
  { clientId := some ""
    clientSecret := some "secret"
    userAgent := some "agent"
    search := fun _ _ => .ok [] }

/-- C8 counterexample: with all three credential values present in the
environment but the client id set to the empty string, the collector still
raises the credentials `ValueError`; so raising is not equivalent to a
credential being absent. -/
theorem c8_counterexample :
    c8Env.clientId ≠ none ∧ c8Env.clientSecret ≠ none ∧
    c8Env.userAgent ≠ none ∧
    collectRedditData c8Env "AB" "Acme" 0 =
      .error ("Reddit credentials not found in environment variables. " ++
        "Required: REDDIT_CLIENT_ID, REDDIT_CLIENT_SECRET, REDDIT_USER_AGENT") := by
  refine ⟨?_, ?_, ?_, rfl⟩ <;> simp [c8Env]

/-- C8 (amended): the collector errors if and only if one of the three
credential values is falsy (absent from the environment or present as the
empty string); in that case the error is raised before any search is
consulted — the outcome does not depend on the search backend at all, so no
partial collection happens. -/
theorem c8_error_iff_falsy_credentials (cid cs ua : Option String)
    (f g : String → String → Except String (List Submission))
    (ticker companyName : String) (ts : Nat) :
    ((∃ msg, collectRedditData ⟨cid, cs, ua, f⟩ ticker companyName ts =
        .error msg) ↔
      (cid.getD "" = "" ∨ cs.getD "" = "" ∨ ua.getD "" = "")) ∧
    ((cid.getD "" = "" ∨ cs.getD "" = "" ∨ ua.getD "" = "") →
      collectRedditData ⟨cid, cs, ua, f⟩ ticker companyName ts =
        collectRedditData ⟨cid, cs, ua, g⟩ ticker companyName ts) := by
  refine ⟨⟨?_, ?_⟩, ?_⟩
  · rintro ⟨msg, hmsg⟩
    by_contra hc
    rw [collectRedditData_ok ⟨cid, cs, ua, f⟩ ticker companyName ts hc] at hmsg
    exact absurd hmsg (by simp)
  · intro hc
    refine ⟨"Reddit credentials not found in environment variables. " ++
      "Required: REDDIT_CLIENT_ID, REDDIT_CLIENT_SECRET, REDDIT_USER_AGENT", ?_⟩
    unfold collectRedditData
    rw [if_pos hc]
  · intro hc
    unfold collectRedditData
    rw [if_pos hc, if_pos hc]

def c8SearchA : String → String → Except String (List Submission) :=
  fun _ _ => .ok []

def c8SearchB : String → String → Except String (List Submission) :=
  fun _ _ => .error "connection failed"

theorem c8_witness :
    (∃ msg, collectRedditData ⟨none, some "s", some "a", c8SearchA⟩
        "AB" "Acme" 0 = .error msg) ∧
    collectRedditData ⟨none, some "s", some "a", c8SearchA⟩ "AB" "Acme" 0 =
      collectRedditData ⟨none, some "s", some "a", c8SearchB⟩ "AB" "Acme" 0 := by
  have h := c8_error_iff_falsy_credentials none (some "s") (some "a")
    c8SearchA c8SearchB "AB" "Acme" 0
  exact ⟨h.1.mpr (Or.inl rfl), h.2 (Or.inl rfl)⟩

/-! ## Server state (`server.py`)

The two module-level dicts `analysis_status` and `analysis_cache` are
modelled as association lists over job ids; `datetime.now()` is a `Nat`
seconds parameter threaded by the caller, so the success TTL of 24 hours is
`24 * 3600` seconds and the failure TTL is `3600` seconds. -/

def lookupAssoc {α : Type} : List (String × α) → String → Option α
  | [], _ => none
  | p :: rest, k => if p.1 = k then some p.2 else lookupAssoc rest k

/-- Python dict assignment `d[k] = v`: overwrite in place when present,
append otherwise. -/
def upsertAssoc {α : Type} (m : List (String × α)) (k : String) (v : α) :
    List (String × α) :=
  if m.any (fun p => p.1 = k) then
    m.map (fun p => if p.1 = k then (k, v) else p)
  else
    m ++ [(k, v)]

/-- Python `d.pop(k, None)`. -/
def removeAssoc {α : Type} : List (String × α) → String → List (String × α)
  | [], _ => []
  | p :: rest, k =>
      if p.1 = k then removeAssoc rest k else p :: removeAssoc rest k

theorem lookupAssoc_upsert_self {α : Type} (m : List (String × α))
    (k : String) (v : α) : lookupAssoc (upsertAssoc m k v) k = some v := by
  unfold upsertAssoc
  split
  · induction m with
    | nil => simp_all
    | cons p rest ih =>
        by_cases hp : p.1 = k
        · simp [lookupAssoc, hp]
        · simp only [List.map_cons, if_neg hp]
          rw [lookupAssoc]
          rw [if_neg hp]
          apply ih
          rename_i hany
          simp only [List.any_cons, Bool.or_eq_true, decide_eq_true_eq] at hany
          rcases hany with h | h
          · exact absurd h hp
          · simpa using h
  · induction m with
    | nil => simp [lookupAssoc]
    | cons p rest ih =>
        rename_i hany
        simp only [List.any_cons, Bool.or_eq_true, decide_eq_true_eq,
          not_or] at hany
        simp only [List.cons_append]
        rw [lookupAssoc, if_neg hany.1]
        exact ih (by simpa using hany.2)

theorem lookupAssoc_remove_self {α : Type} (m : List (String × α))
    (k : String) : lookupAssoc (removeAssoc m k) k = none := by
  induction m with
  | nil => rfl
  | cons p rest ih =>
      by_cases hp : p.1 = k
      · simpa [removeAssoc, hp] using ih
      · rw [removeAssoc, if_neg hp, lookupAssoc, if_neg hp]
        exact ih

/-! ## Pipeline data (`models.py` and the step results of `core.py`)

Numeric EPS fields of the earnings metadata and the raw float metrics of the
price analysis are produced and consumed only as formatted strings by the
pipeline (floating point itself is outside the embedding); every field a
claim touches is carried. -/

structure CompanyInfo where
  ticker : String
  name : String
  sector : String
  industry : String
deriving DecidableEq, Repr

structure EarningsMetadata where
  date : String
  revenue : String
  guidance : String
deriving DecidableEq, Repr

structure PricePerformance where
  since_earnings : String
  vs_sp500 : String
  vs_sector : String
  sector_etf : String
  max_drawdown : String
  current_price : String
  volatility : String
  volatility_pct : String
deriving DecidableEq, Repr

structure NewsArticle where
  title : String
  description : String
  source : String
  date : String
  url : String
  author : String
deriving DecidableEq, Repr

structure SentimentPeriod where
  period : String
  sentiment : String
  confidence : String
  key_drivers : List String
deriving DecidableEq, Repr

structure Theme where
  theme : String
  mention_count : Int
  sentiment : String
  example_quotes : List String
deriving DecidableEq, Repr

structure InsightfulPost where
  date : String
  content_summary : String
  why_notable : String
  score : Int
deriving DecidableEq, Repr

structure NotableQuote where
  quote : String
  author : String
  date : String
  subreddit : String
  score : Int
  context : String
deriving DecidableEq, Repr

structure RedditAnalysis where
  sentiment_timeline : List SentimentPeriod
  top_themes : List Theme
  notable_insights : List InsightfulPost
  notable_quotes : List NotableQuote
  contrarian_takes : List String
  worry_vs_optimism : List (String × List String)
  overall_summary : String
deriving DecidableEq, Repr

structure RedditComment where
  author : String
  text : String
  score : Int
  date : String
  url : String
  image_urls : List String
deriving DecidableEq, Repr

structure RedditPost where
  subreddit : String
  author : String
  title : String
  text : String
  score : Int
  date : String
  url : String
  comments : List RedditComment
  image_urls : List String
deriving DecidableEq, Repr

structure Event where
  date : String
  description : String
  source : String
deriving DecidableEq, Repr

structure InsightReport where
  headline : String
  story : String
  retail_perspective : String
  the_gap : String
  whats_next : String
  key_dates : List Event
  sources : List String
  top_reddit_posts : List RedditPost
deriving DecidableEq, Repr

/-- A raised Python exception: its type name and `str(e)`. -/
structure PyError where
  typeName : String
  msg : String
deriving DecidableEq, Repr

/-- `str(e) if str(e) else` the type name followed by " occurred". -/
def PyError.displayMessage (e : PyError) : String :=
  if e.msg = "" then e.typeName ++ " occurred" else e.msg

/-- The `result` dict accumulated by `run_analysis`; a key that has not been
assigned is `none`. -/
structure ResultPayload where
  job_id : String
  status : String
  ticker : String
  company_info : Option CompanyInfo
  earnings_metadata : Option EarningsMetadata
  price_performance : Option PricePerformance
  news_articles : Option (List NewsArticle)
  reddit_analysis : Option RedditAnalysis
  insight_report : Option InsightReport
  error : Option String
deriving DecidableEq, Repr

/-- One `analysis_status[job_id]` record; `datetime.now().isoformat()` is
abstracted to the `Nat` clock value. -/
structure StatusUpdate where
  job_id : String
  status : String
  progress : String
  message : Option String
  updated_at : Nat
deriving DecidableEq, Repr

/-- One `analysis_cache[job_id]` entry. -/
structure CacheEntry where
  result : ResultPayload
  expires_at : Nat
deriving DecidableEq, Repr

structure ServerState where
  analysis_status : List (String × StatusUpdate)
  analysis_cache : List (String × CacheEntry)
deriving DecidableEq, Repr

/-- A message handed to the connection manager for the job's websocket (the
send is a no-op when no listener is registered; transport is not modelled). -/
inductive WsEvent where
  | statusEvt (job_id : String) (upd : StatusUpdate)
  | resultEvt (job_id : String) (payload : ResultPayload)
  | errorEvt (job_id : String) (msg : String)
  | pongEvt (job_id : String)
deriving DecidableEq, Repr

def CACHE_TTL_HOURS : Nat := 24

/-- `update_status`: upsert the status record and hand a status message to
the websocket manager. -/
def updateStatus (st : ServerState) (now : Nat) (jobId status progress : String)
    (message : Option String) : ServerState × WsEvent :=
  let upd : StatusUpdate :=
    { job_id := jobId, status := status, progress := progress,
      message := message, updated_at := now }
  ({ st with analysis_status := upsertAssoc st.analysis_status jobId upd },
    WsEvent.statusEvt jobId upd)

/-- The fresh `result` dict built inside the `except` handler: only job id,
failed status, ticker and the error message. -/
def failureResult (jobId ticker errMsg : String) : ResultPayload :=
  { job_id := jobId, status := "failed", ticker := ticker,
    company_info := none, earnings_metadata := none,
    price_performance := none, news_articles := none,
    reddit_analysis := none, insight_report := none, error := some errMsg }

/-- The `except` handler of `run_analysis`: cache the fresh failure payload
with the 1-hour TTL, set the `failed` status, and emit the error event. -/
def handleFailure (st : ServerState) (now : Nat) (jobId ticker : String)
    (evs : List WsEvent) (e : PyError) : ServerState × List WsEvent :=
  let errMsg := e.displayMessage
  let entry : CacheEntry :=
    { result := failureResult jobId ticker errMsg,
      expires_at := now + 1 * 3600 }
  let st1 : ServerState :=
    { st with analysis_cache := upsertAssoc st.analysis_cache jobId entry }
  let p := updateStatus st1 now jobId "failed" "0%" (some ("Error: " ++ errMsg))
  (p.1, evs ++ [p.2, WsEvent.errorEvt jobId errMsg])

/-- The completion tail of `run_analysis`: cache the result with the 24-hour
TTL, set the `completed` status, and emit the final result event. -/
def handleCompleted (st : ServerState) (now : Nat) (jobId : String)
    (result : ResultPayload) (evs : List WsEvent) :
    ServerState × List WsEvent :=
  let entry : CacheEntry :=
    { result := result, expires_at := now + CACHE_TTL_HOURS * 3600 }
  let st1 : ServerState :=
    { st with analysis_cache := upsertAssoc st.analysis_cache jobId entry }
  let p := updateStatus st1 now jobId "completed" "100%"
    (some "Analysis complete!")
  (p.1, evs ++ [p.2, WsEvent.resultEvt jobId result])

/-- The minimal `InsightReport` synthesized when no discussion data was
collected, from price and news context only. -/
def minimalInsightReport (ticker : String) (companyInfo : CompanyInfo)
    (earnings : EarningsMetadata) (perf : PricePerformance)
    (newsArticles : List NewsArticle) : InsightReport :=
  let storyParts : List String :=
    ["Price performance analysis for " ++ companyInfo.name ++
        " since earnings on " ++ earnings.date ++ ". ",
      "Stock has moved " ++ perf.since_earnings ++
        " since last earnings report."] ++
    (if 0 < newsArticles.length then
      [" " ++ toString newsArticles.length ++
        " news articles were published during this period, providing context for market movements."]
    else
      [" No Reddit discussion data was available for this ticker during the analysis period."])
  let lastEarningsEvent : Event :=
    { date := earnings.date, description := "Last earnings report",
      source := "Yahoo Finance" }
  { headline := ticker ++ ": Analysis Complete (Limited Data Available)"
    story := String.join storyParts
    retail_perspective :=
      "No retail investor discussion data available for this period."
    the_gap :=
      "Insufficient data to identify gaps between official narrative and retail sentiment."
    whats_next :=
      "Monitor upcoming earnings reports and price action relative to sector performance (" ++
        perf.sector_etf ++ ")."
    key_dates := [lastEarningsEvent]
    sources := if 0 < newsArticles.length then
        ["Yahoo Finance", "yfinance API", "NewsAPI"]
      else
        ["Yahoo Finance", "yfinance API"]
    top_reddit_posts := [] }

/-- The external collaborators called by `run_analysis`, step by step.  Each
fallible call either raises (`error`) or returns its value;
`collect_news_articles` never raises (every failure path inside it returns
the empty list). -/
structure PipelineEnv where
  validateTicker : String → Except PyError CompanyInfo
  getEarningsMetadata : String → Except PyError EarningsMetadata
  analyzePricePerformance :
    String → String → String → Except PyError PricePerformance
  collectNewsArticles : String → String → String → List NewsArticle
  collectRedditPosts : String → String → String → Except PyError (List PostData)
  analyzeRedditWithLlm :
    List PostData → String → String → Except PyError RedditAnalysis
  generateInsightReport :
    CompanyInfo → EarningsMetadata → PricePerformance → RedditAnalysis →
      String → Option (List NewsArticle) → Except PyError InsightReport

/-- `run_analysis(job_id, ticker)`: the sequential pipeline with its status
updates, the empty-discussion fallback branch, and the surrounding
`try/except`.  Returns the mutated server state and the websocket messages
emitted, in order. -/
def runAnalysis (env : PipelineEnv) (now : Nat) (jobId ticker : String)
    (st0 : ServerState) : ServerState × List WsEvent :=
  let p0 := updateStatus st0 now jobId "processing" "0%"
    (some "Starting analysis...")
  let p1 := updateStatus p0.1 now jobId "processing" "10%"
    (some "Validating ticker...")
  match env.validateTicker ticker with
  | .error e => handleFailure p1.1 now jobId ticker [p0.2, p1.2] e
  | .ok companyInfo =>
  let p2 := updateStatus p1.1 now jobId "processing" "25%"
    (some "Fetching earnings data...")
  match env.getEarningsMetadata ticker with
  | .error e => handleFailure p2.1 now jobId ticker [p0.2, p1.2, p2.2] e
  | .ok earnings =>
  let p3 := updateStatus p2.1 now jobId "processing" "35%"
    (some "Analyzing price performance...")
  match env.analyzePricePerformance ticker earnings.date companyInfo.sector with
  | .error e => handleFailure p3.1 now jobId ticker [p0.2, p1.2, p2.2, p3.2] e
  | .ok perf =>
  let p4 := updateStatus p3.1 now jobId "processing" "45%"
    (some "Fetching recent news...")
  let news := env.collectNewsArticles ticker companyInfo.name earnings.date
  let p5 := updateStatus p4.1 now jobId "processing" "60%"
    (some "Collecting Reddit discussions...")
  match env.collectRedditPosts ticker companyInfo.name earnings.date with
  | .error e =>
      handleFailure p5.1 now jobId ticker [p0.2, p1.2, p2.2, p3.2, p4.2, p5.2] e
  | .ok redditPosts =>
  if redditPosts.isEmpty then
    let p6 := updateStatus p5.1 now jobId "processing" "90%"
      (some "Finalizing report...")
    let result : ResultPayload :=
      { job_id := jobId, status := "completed", ticker := ticker,
        company_info := some companyInfo, earnings_metadata := some earnings,
        price_performance := some perf, news_articles := some news,
        reddit_analysis := none,
        insight_report :=
          some (minimalInsightReport ticker companyInfo earnings perf news),
        error := none }
    handleCompleted p6.1 now jobId result
      [p0.2, p1.2, p2.2, p3.2, p4.2, p5.2, p6.2]
  else
    let p6 := updateStatus p5.1 now jobId "processing" "75%"
      (some "Analyzing sentiment with AI...")
    match env.analyzeRedditWithLlm redditPosts ticker earnings.date with
    | .error e =>
        handleFailure p6.1 now jobId ticker
          [p0.2, p1.2, p2.2, p3.2, p4.2, p5.2, p6.2] e
    | .ok analysis =>
    let p7 := updateStatus p6.1 now jobId "processing" "85%"
      (some "Generating insights...")
    match env.generateInsightReport companyInfo earnings perf analysis ticker
        (if news.isEmpty then none else some news) with
    | .error e =>
        handleFailure p7.1 now jobId ticker
          [p0.2, p1.2, p2.2, p3.2, p4.2, p5.2, p6.2, p7.2] e
    | .ok report =>
    let result : ResultPayload :=
      { job_id := jobId, status := "completed", ticker := ticker,
        company_info := some companyInfo, earnings_metadata := some earnings,
        price_performance := some perf, news_articles := some news,
        reddit_analysis := some analysis,
        insight_report := some report, error := none }
    handleCompleted p7.1 now jobId result
      [p0.2, p1.2, p2.2, p3.2, p4.2, p5.2, p6.2, p7.2]

/-- Outcome of the `/api/result/` endpoint: the two distinct 404 failures and
the success payload. -/
inductive ResultQueryOutcome where
  | notFound
  | expired
  | okResult (payload : ResultPayload)
deriving DecidableEq, Repr

/-- `get_result(job_id)`: 404 when the id is absent from the cache; when the
entry's `expires_at` is strictly in the past, evict both the cache entry and
the status record and answer with the expired 404; otherwise return the
payload.  (Every cache entry written by the modelled pipeline carries
`expires_at`, so the legacy-format branch is unreachable here.) -/
def getResult (st : ServerState) (now : Nat) (jobId : String) :
    ResultQueryOutcome × ServerState :=
  match lookupAssoc st.analysis_cache jobId with
  | none => (.notFound, st)
  | some entry =>
    if entry.expires_at < now then
      (.expired,
        { analysis_status := removeAssoc st.analysis_status jobId,
          analysis_cache := removeAssoc st.analysis_cache jobId })
    else
      (.okResult entry.result, st)

/-- The catch-up replay at the top of `websocket_endpoint`: after
registration, send the current status when one exists, then send the cached
result when one exists — the cache entry's `expires_at` is never consulted
here. -/
def wsReplay (st : ServerState) (jobId : String) : List WsEvent :=
  (match lookupAssoc st.analysis_status jobId with
   | some s => [WsEvent.statusEvt jobId s]
   | none => []) ++
  (match lookupAssoc st.analysis_cache jobId with
   | some entry => [WsEvent.resultEvt jobId entry.result]
   | none => [])

/-- The terminal failure shape: `failed` status carrying a non-empty message,
and a cached failure payload expiring after the short (1 hour) TTL. -/
def jobFailedWithShortTTL (st : ServerState) (now : Nat) (jobId : String) :
    Prop :=
  (∃ s, lookupAssoc st.analysis_status jobId = some s ∧
    s.status = "failed" ∧ ∃ m, s.message = some m ∧ m ≠ "") ∧
  (∃ ce, lookupAssoc st.analysis_cache jobId = some ce ∧
    ce.result.status = "failed" ∧ ce.expires_at = now + 1 * 3600)

theorem handleFailure_final (st : ServerState) (now : Nat)
    (jobId ticker : String) (evs : List WsEvent) (e : PyError) :
    jobFailedWithShortTTL (handleFailure st now jobId ticker evs e).1 now jobId := by
  dsimp only [jobFailedWithShortTTL, handleFailure, updateStatus]
  constructor
  · refine ⟨_, lookupAssoc_upsert_self _ _ _, rfl,
      "Error: " ++ e.displayMessage, rfl, ?_⟩
    apply string_ne_empty_of_len_pos
    rw [String.length_append]
    have h7 : ("Error: ").length = 7 := rfl
    omega
  · exact ⟨_, lookupAssoc_upsert_self _ _ _, rfl, rfl⟩

theorem handleCompleted_final (st : ServerState) (now : Nat) (jobId : String)
    (result : ResultPayload) (evs : List WsEvent) :
    (∃ s, lookupAssoc (handleCompleted st now jobId result evs).1.analysis_status
        jobId = some s ∧ s.status = "completed" ∧
        s.message = some "Analysis complete!") ∧
    (∃ ce, lookupAssoc (handleCompleted st now jobId result evs).1.analysis_cache
        jobId = some ce ∧ ce.result = result ∧
        ce.expires_at = now + CACHE_TTL_HOURS * 3600) := by
  dsimp only [handleCompleted, updateStatus]
  exact ⟨⟨_, lookupAssoc_upsert_self _ _ _, rfl, rfl⟩,
    ⟨_, lookupAssoc_upsert_self _ _ _, rfl, rfl⟩⟩

/-- C7: `get_result` on an id never cached fails with not-found; on an id
whose `expires_at` is strictly in the past it fails with expired, evicts both
the cache entry and the status record, and a second fetch of the same id then
fails with not-found rather than expired. -/
theorem c7_get_result_expiry (st : ServerState) (now : Nat) (jobId : String) :
    (lookupAssoc st.analysis_cache jobId = none →
      getResult st now jobId = (.notFound, st)) ∧
    (∀ entry, lookupAssoc st.analysis_cache jobId = some entry →
      entry.expires_at < now →
      (getResult st now jobId).1 = .expired ∧
      lookupAssoc (getResult st now jobId).2.analysis_cache jobId = none ∧
      lookupAssoc (getResult st now jobId).2.analysis_status jobId = none ∧
      (getResult (getResult st now jobId).2 now jobId).1 = .notFound) := by
  constructor
  · intro h
    simp [getResult, h]
  · intro entry he hexp
    have hg : getResult st now jobId =
        (.expired, { analysis_status := removeAssoc st.analysis_status jobId,
                     analysis_cache := removeAssoc st.analysis_cache jobId }) := by
      simp [getResult, he, hexp]
    rw [hg]
    refine ⟨rfl, lookupAssoc_remove_self _ _, lookupAssoc_remove_self _ _, ?_⟩
    simp [getResult, lookupAssoc_remove_self]

/-- A server state holding one cached result for job `"job1"` that expired at
tick 5, together with its status record. -/
def expiredState : ServerState :=
  { analysis_status := [("job1",
      { job_id := "job1", status := "completed", progress := "100%",
        message := some "Analysis complete!", updated_at := 3 })],
    analysis_cache := [("job1",
      { result := failureResult "job1" "AB" "boom", expires_at := 5 })] }

theorem c7_witness :
    (getResult expiredState 10 "job1").1 = .expired ∧
    lookupAssoc (getResult expiredState 10 "job1").2.analysis_cache "job1" =
      none ∧
    lookupAssoc (getResult expiredState 10 "job1").2.analysis_status "job1" =
      none ∧
    (getResult (getResult expiredState 10 "job1").2 10 "job1").1 = .notFound :=
  (c7_get_result_expiry expiredState 10 "job1").2
    { result := failureResult "job1" "AB" "boom", expires_at := 5 }
    rfl (by decide)

/-- C10: the websocket replay sends the cached result without consulting
`expires_at`: a listener registering after expiry but before eviction still
receives the expired result, while `get_result` at the same instant answers
with the expired failure. -/
theorem c10_ws_replay_ignores_expiry (st : ServerState) (now : Nat)
    (jobId : String) (entry : CacheEntry)
    (hc : lookupAssoc st.analysis_cache jobId = some entry)
    (hexp : entry.expires_at < now) :
    WsEvent.resultEvt jobId entry.result ∈ wsReplay st jobId ∧
    (getResult st now jobId).1 = .expired := by
  constructor
  · simp [wsReplay, hc]
  · simp [getResult, hc, hexp]

theorem c10_witness :
    WsEvent.resultEvt "job1" (failureResult "job1" "AB" "boom") ∈
      wsReplay expiredState "job1" ∧
    (getResult expiredState 10 "job1").1 = .expired :=
  c10_ws_replay_ignores_expiry expiredState 10 "job1"
    { result := failureResult "job1" "AB" "boom", expires_at := 5 }
    rfl (by decide)

theorem handleFailure_cache (st : ServerState) (now : Nat)
    (jobId ticker : String) (evs : List WsEvent) (e : PyError) :
    lookupAssoc (handleFailure st now jobId ticker evs e).1.analysis_cache
        jobId =
      some { result := failureResult jobId ticker e.displayMessage,
             expires_at := now + 1 * 3600 } := by
  dsimp only [handleFailure, updateStatus]
  exact lookupAssoc_upsert_self _ _ _

theorem handleCompleted_cache (st : ServerState) (now : Nat) (jobId : String)
    (result : ResultPayload) (evs : List WsEvent) :
    lookupAssoc (handleCompleted st now jobId result evs).1.analysis_cache
        jobId =
      some { result := result, expires_at := now + CACHE_TTL_HOURS * 3600 } := by
  dsimp only [handleCompleted, updateStatus]
  exact lookupAssoc_upsert_self _ _ _

/-- Every run of the orchestrator ends in the `except` handler or in the
completion tail, and a completed payload carries status `"completed"`. -/
theorem runAnalysis_shape (env : PipelineEnv) (now : Nat)
    (jobId ticker : String) (st0 : ServerState) :
    (∃ st1 evs e, runAnalysis env now jobId ticker st0 =
      handleFailure st1 now jobId ticker evs e) ∨
    (∃ st1 result evs, runAnalysis env now jobId ticker st0 =
      handleCompleted st1 now jobId result evs ∧
      result.status = "completed") := by
  unfold runAnalysis
  cases hv : env.validateTicker ticker with
  | error e => exact Or.inl ⟨_, _, _, rfl⟩
  | ok ci =>
  try dsimp only
  cases he : env.getEarningsMetadata ticker with
  | error e => exact Or.inl ⟨_, _, _, rfl⟩
  | ok em =>
  try dsimp only
  cases hp : env.analyzePricePerformance ticker em.date ci.sector with
  | error e => exact Or.inl ⟨_, _, _, rfl⟩
  | ok pp =>
  try dsimp only
  cases hr : env.collectRedditPosts ticker ci.name em.date with
  | error e => exact Or.inl ⟨_, _, _, rfl⟩
  | ok posts =>
  try dsimp only
  cases hemp : posts.isEmpty with
  | true => exact Or.inr ⟨_, _, _, rfl, rfl⟩
  | false =>
  try dsimp only
  cases ha : env.analyzeRedditWithLlm posts ticker em.date with
  | error e => exact Or.inl ⟨_, _, _, rfl⟩
  | ok ra =>
  try dsimp only
  cases hg : env.generateInsightReport ci em pp ra ticker
      (if (env.collectNewsArticles ticker ci.name em.date).isEmpty then none
       else some (env.collectNewsArticles ticker ci.name em.date)) with
  | error e => exact Or.inl ⟨_, _, _, rfl⟩
  | ok report => exact Or.inr ⟨_, _, _, rfl, rfl⟩

/-- C5: the orchestrator never leaves a job in `processing`: every run ends
with status `completed` or `failed`; an exception raised at any pipeline step
(ticker validation, earnings fetch, price analysis, discussion collection,
sentiment analysis, narrative synthesis) yields the terminal `failed` status
with a non-empty message and a cached failure expiring at `now + 1` hour,
while a completed run's cache entry expires at `now + 24` hours — strictly
later. -/
theorem c5_exception_yields_failed (env : PipelineEnv) (now : Nat)
    (jobId ticker : String) (st0 : ServerState) :
    (∃ s, lookupAssoc (runAnalysis env now jobId ticker st0).1.analysis_status
        jobId = some s ∧ (s.status = "completed" ∨ s.status = "failed")) ∧
    (∀ e, env.validateTicker ticker = .error e →
      jobFailedWithShortTTL (runAnalysis env now jobId ticker st0).1 now jobId) ∧
    (∀ ci e, env.validateTicker ticker = .ok ci →
      env.getEarningsMetadata ticker = .error e →
      jobFailedWithShortTTL (runAnalysis env now jobId ticker st0).1 now jobId) ∧
    (∀ ci em e, env.validateTicker ticker = .ok ci →
      env.getEarningsMetadata ticker = .ok em →
      env.analyzePricePerformance ticker em.date ci.sector = .error e →
      jobFailedWithShortTTL (runAnalysis env now jobId ticker st0).1 now jobId) ∧
    (∀ ci em pp e, env.validateTicker ticker = .ok ci →
      env.getEarningsMetadata ticker = .ok em →
      env.analyzePricePerformance ticker em.date ci.sector = .ok pp →
      env.collectRedditPosts ticker ci.name em.date = .error e →
      jobFailedWithShortTTL (runAnalysis env now jobId ticker st0).1 now jobId) ∧
    (∀ ci em pp posts e, env.validateTicker ticker = .ok ci →
      env.getEarningsMetadata ticker = .ok em →
      env.analyzePricePerformance ticker em.date ci.sector = .ok pp →
      env.collectRedditPosts ticker ci.name em.date = .ok posts →
      posts.isEmpty = false →
      env.analyzeRedditWithLlm posts ticker em.date = .error e →
      jobFailedWithShortTTL (runAnalysis env now jobId ticker st0).1 now jobId) ∧
    (∀ ci em pp posts ra e, env.validateTicker ticker = .ok ci →
      env.getEarningsMetadata ticker = .ok em →
      env.analyzePricePerformance ticker em.date ci.sector = .ok pp →
      env.collectRedditPosts ticker ci.name em.date = .ok posts →
      posts.isEmpty = false →
      env.analyzeRedditWithLlm posts ticker em.date = .ok ra →
      env.generateInsightReport ci em pp ra ticker
        (if (env.collectNewsArticles ticker ci.name em.date).isEmpty then none
         else some (env.collectNewsArticles ticker ci.name em.date)) =
        .error e →
      jobFailedWithShortTTL (runAnalysis env now jobId ticker st0).1 now jobId) ∧
    (∀ ce, lookupAssoc (runAnalysis env now jobId ticker st0).1.analysis_cache
        jobId = some ce → ce.result.status = "completed" →
      ce.expires_at = now + CACHE_TTL_HOURS * 3600) ∧
    now + 1 * 3600 < now + CACHE_TTL_HOURS * 3600 := by
  refine ⟨?_, ?_, ?_, ?_, ?_, ?_, ?_, ?_, ?_⟩
  · rcases runAnalysis_shape env now jobId ticker st0 with
      ⟨st1, evs, e, heq⟩ | ⟨st1, result, evs, heq, hres⟩
    · rw [heq]
      obtain ⟨⟨s, hs, hst, _⟩, _⟩ := handleFailure_final st1 now jobId ticker evs e
      exact ⟨s, hs, Or.inr hst⟩
    · rw [heq]
      obtain ⟨⟨s, hs, hst, _⟩, _⟩ := handleCompleted_final st1 now jobId result evs
      exact ⟨s, hs, Or.inl hst⟩
  · intro e hv
    simp only [runAnalysis, hv]
    exact handleFailure_final _ now jobId ticker _ e
  · intro ci e hv he
    simp only [runAnalysis, hv, he]
    exact handleFailure_final _ now jobId ticker _ e
  · intro ci em e hv he hp
    simp only [runAnalysis, hv, he, hp]
    exact handleFailure_final _ now jobId ticker _ e
  · intro ci em pp e hv he hp hr
    simp only [runAnalysis, hv, he, hp, hr]
    exact handleFailure_final _ now jobId ticker _ e
  · intro ci em pp posts e hv he hp hr hemp ha
    simp only [runAnalysis, hv, he, hp, hr, hemp, Bool.false_eq_true,
      if_false, ha]
    exact handleFailure_final _ now jobId ticker _ e
  · intro ci em pp posts ra e hv he hp hr hemp ha hg
    simp only [runAnalysis, hv, he, hp, hr, hemp, Bool.false_eq_true,
      if_false, ha, hg]
    exact handleFailure_final _ now jobId ticker _ e
  · intro ce hce hst
    rcases runAnalysis_shape env now jobId ticker st0 with
      ⟨st1, evs, e, heq⟩ | ⟨st1, result, evs, heq, hres⟩
    · rw [heq, handleFailure_cache] at hce
      injection hce with h
      subst h
      simp [failureResult] at hst
    · rw [heq, handleCompleted_cache] at hce
      injection hce with h
      subst h
      rfl
  · simp only [CACHE_TTL_HOURS]
    omega

def ci0 : CompanyInfo :=
  { ticker := "ABCD", name := "Acme Dynamics", sector := "Technology",
    industry := "Software" }

def em0 : EarningsMetadata :=
  { date := "2024-01-10", revenue := "N/A",
    guidance := "No guidance available" }

def pp0 : PricePerformance :=
  { since_earnings := "5.0%", vs_sp500 := "1.0%", vs_sector := "0.5%",
    sector_etf := "XLK", max_drawdown := "-3.0%", current_price := "$10.00",
    volatility := "low", volatility_pct := "12.0%" }

/-- An environment whose ticker validation raises `ValueError`. -/
def demoEnvFail : PipelineEnv :=
  { validateTicker := fun _ =>
      .error { typeName := "ValueError", msg := "Ticker not found" }
    getEarningsMetadata := fun _ => .ok em0
    analyzePricePerformance := fun _ _ _ => .ok pp0
    collectNewsArticles := fun _ _ _ => []
    collectRedditPosts := fun _ _ _ => .ok []
    analyzeRedditWithLlm := fun _ _ _ =>
      .error { typeName := "RuntimeError", msg := "unused" }
    generateInsightReport := fun _ _ _ _ _ _ =>
      .error { typeName := "RuntimeError", msg := "unused" } }

def emptyServerState : ServerState :=
  { analysis_status := [], analysis_cache := [] }

theorem c5_witness :
    jobFailedWithShortTTL
      (runAnalysis demoEnvFail 0 "j1" "AB" emptyServerState).1 0 "j1" :=
  (c5_exception_yields_failed demoEnvFail 0 "j1" "AB" emptyServerState).2.1
    { typeName := "ValueError", msg := "Ticker not found" } rfl

/-- C6: when the discussion collector returns an empty sequence, the
orchestrator still reaches `completed`: the cached result's discussion
analysis field is `none`, the stored narrative is exactly the minimal report
built from price and news context only, and the run does not depend on the
discussion-sentiment or full-synthesis collaborators at all (they are
skipped). -/
theorem c6_empty_discussion_graceful (env : PipelineEnv) (now : Nat)
    (jobId ticker : String) (st0 : ServerState) (ci : CompanyInfo)
    (em : EarningsMetadata) (pp : PricePerformance)
    (hv : env.validateTicker ticker = .ok ci)
    (he : env.getEarningsMetadata ticker = .ok em)
    (hp : env.analyzePricePerformance ticker em.date ci.sector = .ok pp)
    (hr : env.collectRedditPosts ticker ci.name em.date = .ok []) :
    (∃ s, lookupAssoc (runAnalysis env now jobId ticker st0).1.analysis_status
        jobId = some s ∧ s.status = "completed") ∧
    (∃ ce, lookupAssoc (runAnalysis env now jobId ticker st0).1.analysis_cache
        jobId = some ce ∧
      ce.result.status = "completed" ∧
      ce.result.reddit_analysis = none ∧
      ce.result.insight_report = some (minimalInsightReport ticker ci em pp
        (env.collectNewsArticles ticker ci.name em.date))) ∧
    (∀ f g, runAnalysis
        { env with analyzeRedditWithLlm := f, generateInsightReport := g }
        now jobId ticker st0 = runAnalysis env now jobId ticker st0) := by
  refine ⟨?_, ?_, ?_⟩
  · simp only [runAnalysis, hv, he, hp, hr, List.isEmpty_nil, if_true]
    obtain ⟨⟨s, hs, hst, _⟩, _⟩ := handleCompleted_final _ now jobId _ _
    exact ⟨s, hs, hst⟩
  · simp only [runAnalysis, hv, he, hp, hr, List.isEmpty_nil, if_true]
    rw [handleCompleted_cache]
    exact ⟨_, rfl, rfl, rfl, rfl⟩
  · intro f g
    simp only [runAnalysis, hv, he, hp, hr, List.isEmpty_nil, if_true]

/-- An environment that completes with zero collected discussion items; its
two LLM collaborators would raise if they were ever consulted. -/
def demoEnvEmptyReddit : PipelineEnv :=
  { validateTicker := fun _ => .ok ci0
    getEarningsMetadata := fun _ => .ok em0
    analyzePricePerformance := fun _ _ _ => .ok pp0
    collectNewsArticles := fun _ _ _ => []
    collectRedditPosts := fun _ _ _ => .ok []
    analyzeRedditWithLlm := fun _ _ _ =>
      .error { typeName := "RuntimeError", msg := "not called" }
    generateInsightReport := fun _ _ _ _ _ _ =>
      .error { typeName := "RuntimeError", msg := "not called" } }

theorem c6_witness :
    (∃ s, lookupAssoc
        (runAnalysis demoEnvEmptyReddit 0 "j1" "ABCD" emptyServerState).1.analysis_status
        "j1" = some s ∧ s.status = "completed") ∧
    (∃ ce, lookupAssoc
        (runAnalysis demoEnvEmptyReddit 0 "j1" "ABCD" emptyServerState).1.analysis_cache
        "j1" = some ce ∧
      ce.result.status = "completed" ∧
      ce.result.reddit_analysis = none ∧
      ce.result.insight_report = some (minimalInsightReport "ABCD" ci0 em0 pp0
        (demoEnvEmptyReddit.collectNewsArticles "ABCD" ci0.name em0.date))) ∧
    (∀ f g, runAnalysis
        { demoEnvEmptyReddit with
            analyzeRedditWithLlm := f, generateInsightReport := g }
        0 "j1" "ABCD" emptyServerState =
      runAnalysis demoEnvEmptyReddit 0 "j1" "ABCD" emptyServerState) :=
  c6_empty_discussion_graceful demoEnvEmptyReddit 0 "j1" "ABCD"
    emptyServerState ci0 em0 pp0 rfl rfl rfl rfl

/-- C9: whenever a run ends with a failed cached payload, that payload holds
only the job id, the `failed` status, the ticker and the error message —
every partial step result (company info, earnings, price performance, news,
discussion analysis, report) is absent. -/
theorem c9_failure_payload_only_error (env : PipelineEnv) (now : Nat)
    (jobId ticker : String) (st0 : ServerState) (ce : CacheEntry)
    (hce : lookupAssoc (runAnalysis env now jobId ticker st0).1.analysis_cache
      jobId = some ce)
    (hst : ce.result.status = "failed") :
    ce.result.company_info = none ∧ ce.result.earnings_metadata = none ∧
    ce.result.price_performance = none ∧ ce.result.news_articles = none ∧
    ce.result.reddit_analysis = none ∧ ce.result.insight_report = none ∧
    ∃ m, ce.result.error = some m ∧ ce.result = failureResult jobId ticker m := by
  rcases runAnalysis_shape env now jobId ticker st0 with
    ⟨st1, evs, e, heq⟩ | ⟨st1, result, evs, heq, hres⟩
  · rw [heq, handleFailure_cache] at hce
    injection hce with h
    subst h
    exact ⟨rfl, rfl, rfl, rfl, rfl, rfl, e.displayMessage, rfl, rfl⟩
  · rw [heq, handleCompleted_cache] at hce
    injection hce with h
    subst h
    exact absurd (hres.symm.trans hst) (by decide)

/-- The concrete failure entry cached by `demoEnvFail`'s run. -/
def c9Entry : CacheEntry :=
  { result := failureResult "j1" "AB" "Ticker not found", expires_at := 3600 }

theorem c9_witness :
    c9Entry.result.company_info = none ∧
    c9Entry.result.earnings_metadata = none ∧
    c9Entry.result.price_performance = none ∧
    c9Entry.result.news_articles = none ∧
    c9Entry.result.reddit_analysis = none ∧
    c9Entry.result.insight_report = none ∧
    ∃ m, c9Entry.result.error = some m ∧
      c9Entry.result = failureResult "j1" "AB" m :=
  c9_failure_payload_only_error demoEnvFail 0 "j1" "AB" emptyServerState
    c9Entry rfl rfl
